import Mathlib

/-!
Shallow embedding of the `ruxel` window plugin
(`src/core/window/mod.rs`, `src/core/window/systems.rs`).

Entities and native window identifiers are modelled as naturals; the
bidirectional registry (`WinitWindows`) is modelled with association lists.
The components module, events module and resources module of the repository
are not part of the provided sources, so their data (the `Window` descriptor,
the `PrimaryWindowCount` resource, and the bodies of
`WinitWindows::create_window` / `WinitWindows::destroy_window`) are modelled
from the specification; every such definition is marked in its doc comment.
All the systems of `systems.rs` and the runner of `mod.rs` are translated
from the source.
-/

namespace Ruxel

/-- Entity identifiers of the ECS world (bevy `Entity`). -/
abbrev Entity := Nat

/-- Native window identifiers (winit `WindowId`). -/
abbrev WindowId := Nat

/-- Association-list lookup with `Nat` keys: the first binding of the key
wins, mirroring map lookup on the Rust side. -/
def alookup {α : Type} (k : Nat) : List (Nat × α) → Option α
  | [] => none
  | (k', v) :: rest => if k = k' then some v else alookup k rest

/-- Modelled from the spec: the `Window` descriptor component
(`components.rs` is absent from the sources). The spec describes it as the
creation parameters "title, size, etc."; only the title is observable in the
provided systems, so only the title is modelled. -/
structure Window where
  title : String
  deriving DecidableEq, Repr

/-- Modelled from the spec: the `WinitWindows` registry resource
(`resources.rs` is absent from the sources). Two maps, entity→native-handle
and native-handle→entity; native handle allocation is modelled by a fresh
counter `next_id`. -/
structure WinitWindows where
  entity_to_window : List (Entity × WindowId)
  window_to_entity : List (WindowId × Entity)
  next_id : Nat
  deriving DecidableEq, Repr

/-- The empty registry (`WinitWindows::default`). -/
def WinitWindows.default : WinitWindows := ⟨[], [], 0⟩

/-- Modelled from the spec: `WinitWindows::create_window` (body in the absent
`resources.rs`). "Constructs exactly one native window for `entity` ...
registers both map entries atomically"; the fresh native handle is `next_id`. -/
def WinitWindows.create_window (ww : WinitWindows) (entity : Entity) (_window : Window) :
    WinitWindows :=
  { entity_to_window := (entity, ww.next_id) :: ww.entity_to_window
    window_to_entity := (ww.next_id, entity) :: ww.window_to_entity
    next_id := ww.next_id + 1 }

/-- Modelled from the spec: `WinitWindows::destroy_window` (body in the absent
`resources.rs`). "Removes both map entries and releases the native window ...
should tolerate a missing entry by treating it as a no-op rather than
faulting". -/
def WinitWindows.destroy_window (ww : WinitWindows) (entity : Entity) : WinitWindows :=
  match alookup entity ww.entity_to_window with
  | none => ww
  | some id =>
    { ww with
      entity_to_window := ww.entity_to_window.filter (fun p => decide (p.1 ≠ entity))
      window_to_entity := ww.window_to_entity.filter (fun p => decide (p.1 ≠ id)) }

/-- The loop body of `create_windows` for one `(Entity, &Window)` of the
`Added<Window>` query: "if the winit window already exists somehow, don't
create another one", otherwise create it. -/
def createStep (acc : WinitWindows) (p : Entity × Window) : WinitWindows :=
  if (alookup p.1 acc.entity_to_window).isSome then acc
  else acc.create_window p.1 p.2

/-- `create_windows` (`mod.rs`): for every `(Entity, &Window)` produced by the
`Added<Window>` query, create a native window unless `entity_to_window`
already contains the entity. -/
def create_windows (added : List (Entity × Window)) (ww : WinitWindows) : WinitWindows :=
  added.foldl createStep ww

/-- Output of one run of `u_primary_window_check`: the final
`PrimaryWindowCount`, the entities whose `PrimaryWindow` marker is removed by
the queued commands, and the emitted warnings.  A warning carries the entity
it names and, when the entity has a `Window` component, that descriptor's
title (the source formats these into the log line). -/
structure PrimaryCheckResult where
  count : Nat
  removed : List Entity
  warnings : List (Entity × Option String)
  deriving DecidableEq, Repr

/-- The loop body of `u_primary_window_check` for one entity of the
`Added<PrimaryWindow>` query: increment `PrimaryWindowCount`; when the count
exceeds 1, warn, queue removal of the `PrimaryWindow` component from the
entity, and decrement the count back down. -/
def primaryStep (r : PrimaryCheckResult) (p : Entity × Option Window) : PrimaryCheckResult :=
  let c := r.count + 1
  if 1 < c then
    { count := c - 1
      removed := r.removed ++ [p.1]
      warnings := r.warnings ++ [(p.1, p.2.map Window.title)] }
  else
    { r with count := c }

/-- `u_primary_window_check` (`systems.rs`): iterates the
`Added<PrimaryWindow>` query (entities paired with their optional `Window`
component, in arrival order), running `primaryStep` for each. -/
def u_primary_window_check (added : List (Entity × Option Window)) (count : Nat) :
    PrimaryCheckResult :=
  added.foldl primaryStep ⟨count, [], []⟩

/-- `u_despawn_windows` (`systems.rs`): for every pending
`CloseRequestedEvent`, resolve the carried `window_id` through
`winit_windows.window_to_entity[&event.window_id]` and queue a despawn of the
resolved entity.  The source uses the map's panicking index operator, so a
`window_id` with no binding aborts the system: this is modelled by
`Except.error` carrying the offending identifier.  On success the value is
the list of entities to despawn, in event order; the registry itself is only
read, never written, by this system. -/
def u_despawn_windows (events : List WindowId) (ww : WinitWindows) :
    Except WindowId (List Entity) :=
  match events with
  | [] => .ok []
  | id :: rest =>
    match alookup id ww.window_to_entity with
    | none => .error id
    | some e => (u_despawn_windows rest ww).map (fun es => e :: es)

/-- `u_close_windows` (`systems.rs`): for every entity produced by the
`RemovedComponents<Window>` reader, call `winit_windows.destroy_window`. -/
def u_close_windows (removed : List Entity) (ww : WinitWindows) : WinitWindows :=
  removed.foldl WinitWindows.destroy_window ww

/-- `pu_exit_on_primary_closed` (`systems.rs`): emits `AppExit` exactly when
the query `(With<Window>, With<PrimaryWindow>)` is empty.  The argument is
the list of entities matching that query. -/
def pu_exit_on_primary_closed (windows : List Entity) : Bool :=
  windows.isEmpty

/-- `pu_exit_on_all_closed` (`systems.rs`): emits `AppExit` exactly when the
query `With<Window>` is empty.  The argument is the list of entities matching
that query. -/
def pu_exit_on_all_closed (windows : List Entity) : Bool :=
  windows.isEmpty

/-- The ECS world state relevant to the window plugin: live component data
(`windows` maps live entities to their `Window` descriptor, `primary` lists
live entities carrying the `PrimaryWindow` marker), change-detection queues
(`addedPrimary` for `Added<PrimaryWindow>`, `addedWindows` for the runner's
`Added<Window>` system state, `removedWindows` for
`RemovedComponents<Window>`), the pending `CloseRequestedEvent` queue, the
total number of `AppExit` events ever sent, the `PrimaryWindowCount`
resource, and the `WinitWindows` registry resource. -/
structure AppWorld where
  nextEntity : Nat
  windows : List (Entity × Window)
  primary : List Entity
  addedPrimary : List Entity
  addedWindows : List (Entity × Window)
  removedWindows : List Entity
  closeEvents : List WindowId
  exitEvents : Nat
  primaryCount : Nat
  registry : WinitWindows
  deriving DecidableEq, Repr

/-- The empty world before plugin registration. -/
def AppWorld.empty : AppWorld :=
  ⟨0, [], [], [], [], [], [], 0, 0, WinitWindows.default⟩

/-- Despawning an entity (the deferred `commands.entity(e).despawn()`):
all of its components disappear, so it leaves `windows`, `primary` and the
added-queues; if it carried a `Window` descriptor the removal is recorded for
the `RemovedComponents<Window>` reader.  The `PrimaryWindowCount` resource is
not touched by a despawn. -/
def despawnEntity (w : AppWorld) (e : Entity) : AppWorld :=
  { w with
    windows := w.windows.filter (fun p => decide (p.1 ≠ e))
    primary := w.primary.filter (fun x => decide (x ≠ e))
    addedPrimary := w.addedPrimary.filter (fun x => decide (x ≠ e))
    addedWindows := w.addedWindows.filter (fun p => decide (p.1 ≠ e))
    removedWindows :=
      if (alookup e w.windows).isSome then w.removedWindows ++ [e] else w.removedWindows }

/-- Spawning a fresh entity with a `Window` descriptor and the
`PrimaryWindow` marker (`app.world.spawn(window).insert(PrimaryWindow)`). -/
def spawnPrimaryWindow (w : AppWorld) (d : Window) : AppWorld :=
  { w with
    nextEntity := w.nextEntity + 1
    windows := w.windows ++ [(w.nextEntity, d)]
    primary := w.primary ++ [w.nextEntity]
    addedPrimary := w.addedPrimary ++ [w.nextEntity]
    addedWindows := w.addedWindows ++ [(w.nextEntity, d)] }

/-- `u_primary_window_check` lifted to the world: the `Added<PrimaryWindow>`
query yields `addedPrimary` entities paired with their optional `Window`
component; the resulting deferred commands strip the marker from the
reported duplicates and the `PrimaryWindowCount` resource is updated. -/
def runPrimaryCheck (w : AppWorld) : AppWorld :=
  let r := u_primary_window_check
    (w.addedPrimary.map (fun e => (e, alookup e w.windows))) w.primaryCount
  { w with
    primaryCount := r.count
    primary := w.primary.filter (fun e => decide (e ∉ r.removed))
    addedPrimary := [] }

/-- `u_close_windows` lifted to the world: consumes the
`RemovedComponents<Window>` queue and applies the registry teardown. -/
def runCloseWindows (w : AppWorld) : AppWorld :=
  { w with
    registry := u_close_windows w.removedWindows w.registry
    removedWindows := [] }

/-- `u_despawn_windows` lifted to the world: consumes the
`CloseRequestedEvent` queue; `none` models the panic of the indexing
operation on an unresolvable identifier, otherwise the resolved entities are
despawned by the deferred commands. -/
def runDespawnWindows (w : AppWorld) : Option AppWorld :=
  match u_despawn_windows w.closeEvents w.registry with
  | .error _ => none
  | .ok es => some (es.foldl despawnEntity { w with closeEvents := [] })

/-- The post-update exit systems that `WindowPlugin::build` can install. -/
inductive PostSystem where
  | exitOnPrimaryClosed
  | exitOnAllClosed
  deriving DecidableEq, Repr

/-- Run one installed post-update system on the world: the system's query is
evaluated against the live component data and an `AppExit` event is sent when
the system decides to emit. -/
def runPostSystem (w : AppWorld) (s : PostSystem) : AppWorld :=
  match s with
  | .exitOnPrimaryClosed =>
    if pu_exit_on_primary_closed
        ((w.windows.map Prod.fst).filter (fun e => decide (e ∈ w.primary))) then
      { w with exitEvents := w.exitEvents + 1 }
    else w
  | .exitOnAllClosed =>
    if pu_exit_on_all_closed (w.windows.map Prod.fst) then
      { w with exitEvents := w.exitEvents + 1 }
    else w

/-- The `PostUpdate` schedule: run every installed post-update system. -/
def runPostUpdate (systems : List PostSystem) (w : AppWorld) : AppWorld :=
  systems.foldl runPostSystem w

/-- The `Update` schedule: the three update systems in the order they are
added in `WindowPlugin::build` (`u_primary_window_check`, `u_close_windows`,
`u_despawn_windows`; bevy imposes no ordering between them, this fixes the
textual one).  `none` models a panic inside `u_despawn_windows`. -/
def runUpdate (w : AppWorld) : Option AppWorld :=
  runDespawnWindows (runCloseWindows (runPrimaryCheck w))

/-- One application frame (`app.update()`): the `Update` schedule followed by
the `PostUpdate` schedule with the installed exit systems. -/
def appUpdate (post : List PostSystem) (w : AppWorld) : Option AppWorld :=
  (runUpdate w).map (runPostUpdate post)

/-- `ExitCondition` (`mod.rs`): the condition at which the event loop will
quit. -/
inductive ExitCondition where
  | OnPrimaryClosed
  | OnAllClosed
  | DontExit
  deriving DecidableEq, Repr

/-- `ExitCondition::default` (`mod.rs`): the `#[default]` variant is
`OnAllClosed`. -/
def ExitCondition.default : ExitCondition := .OnAllClosed

/-- `WindowPlugin` (`mod.rs`): an optional primary window descriptor and an
exit condition. -/
structure WindowPlugin where
  primary_window : Option Window
  exit_condition : ExitCondition

/-- The application produced by `WindowPlugin::build`: the world after plugin
registration and the post-update systems the `match` on `exit_condition`
installed. -/
structure BuiltApp where
  world : AppWorld
  installedPost : List PostSystem

/-- `WindowPlugin::build` (`mod.rs`): spawn the optional primary window
entity (descriptor plus `PrimaryWindow` marker), install the exit system
selected by `exit_condition`, and insert the default resources
(`WinitWindows::default`, `PrimaryWindowCount::default`, both already part of
`AppWorld.empty`). -/
def WindowPlugin.build (p : WindowPlugin) : BuiltApp :=
  { world :=
      match p.primary_window with
      | none => AppWorld.empty
      | some d => spawnPrimaryWindow AppWorld.empty d
    installedPost :=
      match p.exit_condition with
      | .OnPrimaryClosed => [.exitOnPrimaryClosed]
      | .OnAllClosed => [.exitOnAllClosed]
      | .DontExit => [] }

/-- The native events the runner's `event_handler` distinguishes:
`NewEvents(StartCause::Init)`, `WindowEvent::CloseRequested`, `AboutToWait`,
and everything else. -/
inductive NativeEvent where
  | init
  | closeRequested (id : WindowId)
  | aboutToWait
  | other
  deriving DecidableEq, Repr

/-- The runner's loop-local state: the app world, the position of
`app_exit_event_reader` (number of `AppExit` events already read), the
`exited` workaround flag, and whether the plugins were cleaned so that
frames may run. -/
structure DriverState where
  world : AppWorld
  reader : Nat
  exited : Bool
  pluginsCleaned : Bool
  deriving DecidableEq, Repr

/-- What one dispatch of the `event_handler` does to the native loop:
continue polling, terminate (`window_target.exit()` was called), or abort on
a panic inside the frame. -/
inductive Outcome where
  | continued
  | terminated
  | panicked
  deriving DecidableEq, Repr

/-- The result of one dispatch: the new driver state, the loop outcome, and
whether an application frame (`app.update()`) ran during the dispatch. -/
structure StepResult where
  state : DriverState
  outcome : Outcome
  frameRan : Bool
  deriving DecidableEq, Repr

/-- The end-of-dispatch reconciliation (`create_windows` on the runner's
`Added<Window>` system state): every pending added window is offered to the
registry and the system state's queue is consumed. -/
def reconcile (w : AppWorld) : AppWorld :=
  { w with
    registry := create_windows w.addedWindows w.registry
    addedWindows := [] }

/-- The runner's `event_handler` (`mod.rs`), one dispatch, parameterised by
the frame function `upd` (`app.update()`; `none` models a panic):
1. read `AppExit` events first, unconditionally; if any, call
   `window_target.exit()`, set `exited`, and return;
2. on `Init`, reconcile new windows; on `CloseRequested`, send a
   `CloseRequestedEvent`; on `AboutToWait`, when plugins are cleaned and not
   `exited`, run the frame and re-read `AppExit` events, terminating at once
   if any arrived;
3. unless an early return was taken, reconcile new windows at the end. -/
def event_handler (upd : AppWorld → Option AppWorld) (s : DriverState) (ev : NativeEvent) :
    StepResult :=
  if s.reader < s.world.exitEvents then
    ⟨⟨s.world, s.world.exitEvents, true, s.pluginsCleaned⟩, .terminated, false⟩
  else
    let r := s.world.exitEvents
    match ev with
    | .init =>
      let w := reconcile s.world
      ⟨⟨reconcile w, r, s.exited, s.pluginsCleaned⟩, .continued, false⟩
    | .closeRequested id =>
      let w := { s.world with closeEvents := s.world.closeEvents ++ [id] }
      ⟨⟨reconcile w, r, s.exited, s.pluginsCleaned⟩, .continued, false⟩
    | .aboutToWait =>
      if s.pluginsCleaned && !s.exited then
        match upd s.world with
        | none => ⟨⟨s.world, r, s.exited, s.pluginsCleaned⟩, .panicked, true⟩
        | some w' =>
          if r < w'.exitEvents then
            ⟨⟨w', w'.exitEvents, true, s.pluginsCleaned⟩, .terminated, true⟩
          else
            ⟨⟨reconcile w', r, s.exited, s.pluginsCleaned⟩, .continued, true⟩
      else
        ⟨⟨reconcile s.world, r, s.exited, s.pluginsCleaned⟩, .continued, false⟩
    | .other =>
      ⟨⟨reconcile s.world, r, s.exited, s.pluginsCleaned⟩, .continued, false⟩

/-- Dispatch a whole trace of native events, counting the frames that ran.
The native loop may keep delivering events after `window_target.exit()` was
requested (the workaround the `exited` flag exists for), so the fold does not
stop at a terminating dispatch. -/
def runTrace (upd : AppWorld → Option AppWorld) (s : DriverState) :
    List NativeEvent → DriverState × Nat
  | [] => (s, 0)
  | ev :: rest =>
    let r := event_handler upd s ev
    let t := runTrace upd r.state rest
    (t.1, (if r.frameRan then 1 else 0) + t.2)

/-- The runner's initial loop-local state (`runner`, `mod.rs`): fresh event
reader, `exited = false`; `pluginsCleaned` records whether the
`finish`/`cleanup` calls at the top of `runner` ran. -/
def initialDriverState (w : AppWorld) (cleaned : Bool) : DriverState :=
  ⟨w, 0, false, cleaned⟩

/-- Mutual consistency of the registry's two maps: every forward entry has
the matching reverse entry and vice versa, no key is bound twice on either
side, and every allocated native handle is below the freshness counter. -/
def WinitWindows.Consistent (ww : WinitWindows) : Prop :=
  (∀ p ∈ ww.entity_to_window, alookup p.2 ww.window_to_entity = some p.1)
  ∧ (∀ q ∈ ww.window_to_entity, alookup q.2 ww.entity_to_window = some q.1)
  ∧ (∀ q ∈ ww.window_to_entity, q.1 < ww.next_id)
  ∧ (ww.entity_to_window.map Prod.fst).Nodup
  ∧ (ww.window_to_entity.map Prod.fst).Nodup

/-- Every live entity carrying a `Window` descriptor is either still pending
in the runner's `Added<Window>` system state or already has a registered
native handle.  This is the state in which every dispatch leaves the world,
and the reconciliation step turns the pending half into handles. -/
def WindowsRealizedInv (w : AppWorld) : Prop :=
  ∀ p ∈ w.windows, p.1 ∈ w.addedWindows.map Prod.fst
    ∨ (alookup p.1 w.registry.entity_to_window).isSome = true

/-! ### Association-list lemmas -/

@[simp] theorem alookup_nil {α : Type} (k : Nat) : alookup (α := α) k [] = none := rfl

@[simp] theorem alookup_cons {α : Type} (k k' : Nat) (v : α) (l : List (Nat × α)) :
    alookup k ((k', v) :: l) = if k = k' then some v else alookup k l := rfl

theorem mem_of_alookup_some {α : Type} {k : Nat} {v : α} {l : List (Nat × α)}
    (h : alookup k l = some v) : (k, v) ∈ l := by
  induction l with
  | nil => simp at h
  | cons p rest ih =>
    obtain ⟨k', v'⟩ := p
    rw [alookup_cons] at h
    by_cases hk : k = k'
    · subst hk
      rw [if_pos rfl] at h
      injection h with h
      subst h
      exact List.mem_cons_self _ _
    · rw [if_neg hk] at h
      exact List.mem_cons_of_mem _ (ih h)

theorem alookup_none_not_mem_keys {α : Type} {k : Nat} {l : List (Nat × α)}
    (h : alookup k l = none) : k ∉ l.map Prod.fst := by
  induction l with
  | nil => simp
  | cons p rest ih =>
    obtain ⟨k', v'⟩ := p
    rw [alookup_cons] at h
    by_cases hk : k = k'
    · subst hk
      rw [if_pos rfl] at h
      exact absurd h (Option.some_ne_none _)
    · rw [if_neg hk] at h
      intro hmem
      rcases List.mem_cons.mp hmem with h1 | h1
      · exact hk h1
      · exact ih h h1

theorem alookup_some_of_mem_nodup {α : Type} {k : Nat} {v : α} {l : List (Nat × α)}
    (hnd : (l.map Prod.fst).Nodup) (hm : (k, v) ∈ l) : alookup k l = some v := by
  induction l with
  | nil => simp at hm
  | cons p rest ih =>
    obtain ⟨k', v'⟩ := p
    simp only [List.map_cons, List.nodup_cons] at hnd
    rcases List.mem_cons.mp hm with h | h
    · cases h
      rw [alookup_cons, if_pos rfl]
    · have hk : k ≠ k' := by
        rintro rfl
        exact hnd.1 (List.mem_map.mpr ⟨(k, v), h, rfl⟩)
      rw [alookup_cons, if_neg hk]
      exact ih hnd.2 h

theorem alookup_filter_key_ne {α : Type} {k j : Nat} (l : List (Nat × α))
    (h : k ≠ j) : alookup k (l.filter (fun p => decide (p.1 ≠ j))) = alookup k l := by
  induction l with
  | nil => rfl
  | cons p rest ih =>
    obtain ⟨k', v'⟩ := p
    rw [List.filter_cons]
    by_cases hj : k' = j
    · rw [if_neg (by simp [hj]), ih, alookup_cons,
        if_neg (fun hkk : k = k' => h (hkk.trans hj))]
    · rw [if_pos (by simp [hj]), alookup_cons, alookup_cons, ih]

theorem alookup_filter_key_self {α : Type} (k : Nat) (l : List (Nat × α)) :
    alookup k (l.filter (fun p => decide (p.1 ≠ k))) = none := by
  induction l with
  | nil => rfl
  | cons p rest ih =>
    obtain ⟨k', v'⟩ := p
    rw [List.filter_cons]
    by_cases hk : k' = k
    · rw [if_neg (by simp [hk])]
      exact ih
    · rw [if_pos (by simp [hk]), alookup_cons, if_neg (fun h : k = k' => hk h.symm)]
      exact ih

theorem alookup_none_filter {α : Type} {k : Nat} {l : List (Nat × α)}
    (q : Nat × α → Bool) (h : alookup k l = none) :
    alookup k (l.filter q) = none := by
  induction l with
  | nil => rfl
  | cons p rest ih =>
    obtain ⟨k', v'⟩ := p
    rw [alookup_cons] at h
    by_cases hk : k = k'
    · subst hk
      rw [if_pos rfl] at h
      exact absurd h (Option.some_ne_none _)
    · rw [if_neg hk] at h
      rw [List.filter_cons]
      by_cases hq : q (k', v') = true
      · rw [if_pos hq, alookup_cons, if_neg hk]
        exact ih h
      · rw [if_neg hq]
        exact ih h

/-! ### Primary-window enforcement lemmas -/

theorem u_primary_window_check_eq_foldl (added : List (Entity × Option Window)) (count : Nat) :
    u_primary_window_check added count = added.foldl primaryStep ⟨count, [], []⟩ := rfl

/-- Once the running count has reached 1, every further observed entity is
stripped and warned about, and the count stays at 1. -/
theorem primary_foldl_saturated (l : List (Entity × Option Window))
    (rs : List Entity) (ws : List (Entity × Option String)) :
    l.foldl primaryStep ⟨1, rs, ws⟩ =
      ⟨1, rs ++ l.map Prod.fst, ws ++ l.map (fun p => (p.1, p.2.map Window.title))⟩ := by
  induction l generalizing rs ws with
  | nil => simp
  | cons p rest ih =>
    have hstep : primaryStep ⟨1, rs, ws⟩ p =
        ⟨1, rs ++ [p.1], ws ++ [(p.1, p.2.map Window.title)]⟩ := by
      simp [primaryStep]
    rw [List.foldl_cons, hstep, ih]
    simp

/-- C2, supporting form: from a zero count, the first observed entity is kept
and every later one is stripped with a warning. -/
theorem u_primary_window_check_zero (added : List (Entity × Option Window)) :
    u_primary_window_check added 0 =
      ⟨min added.length 1, (added.drop 1).map Prod.fst,
        (added.drop 1).map (fun p => (p.1, p.2.map Window.title))⟩ := by
  rw [u_primary_window_check_eq_foldl]
  cases added with
  | nil => rfl
  | cons p rest =>
    have hstep : primaryStep ⟨0, [], []⟩ p = ⟨1, [], []⟩ := by
      simp [primaryStep]
    rw [List.foldl_cons, hstep, primary_foldl_saturated]
    simp [Nat.min_def]

/-- The marker filter keeps exactly the first entity when the stripped set is
the tail of a duplicate-free list. -/
theorem filter_not_mem_drop_one {es : List Entity} (hn : es.Nodup) :
    es.filter (fun e => decide (e ∉ es.drop 1)) = es.take 1 := by
  cases es with
  | nil => rfl
  | cons x rest =>
    simp only [List.drop_succ_cons, List.drop_zero, List.take_succ_cons, List.take_zero]
    rw [List.filter_cons]
    have hx : x ∉ rest := (List.nodup_cons.mp hn).1
    rw [if_pos (by simpa using hx)]
    have : rest.filter (fun e => decide (e ∉ rest)) = [] := by
      rw [List.filter_eq_nil_iff]
      intro a ha
      simp [ha]
    rw [this]

/-- The world-level reading of `u_primary_window_check` on a fresh counter:
the retained marker set is the first-spawned entity only. -/
theorem runPrimaryCheck_fresh (w : AppWorld) (hn : w.primary.Nodup)
    (ha : w.addedPrimary = w.primary) (hc : w.primaryCount = 0) :
    (runPrimaryCheck w).primary = w.primary.take 1
    ∧ (runPrimaryCheck w).primaryCount = min w.primary.length 1 := by
  unfold runPrimaryCheck
  rw [ha, hc, u_primary_window_check_zero]
  have hmap : (((w.primary.map (fun e => (e, alookup e w.windows))).drop 1).map Prod.fst)
      = w.primary.drop 1 := by
    rw [← List.map_drop, List.map_map]
    simp [Function.comp_def]
  constructor
  · simp only [hmap]
    exact filter_not_mem_drop_one hn
  · simp

/-- C2: for any sequence of entity spawns marking N ≥ 0 entities Primary
(observed with a fresh counter), one run of the primary-window enforcement
system leaves exactly min(N,1) markers, retained by the first entity in
arrival order; every later-seen entity is stripped, with a warning naming it
and, when it has a `Window` descriptor, that descriptor's title. -/
theorem C2_primary_window_enforcement
    (added : List (Entity × Option Window)) (w : AppWorld)
    (hn : w.primary.Nodup) (ha : w.addedPrimary = w.primary) (hc : w.primaryCount = 0) :
    (u_primary_window_check added 0).count = min added.length 1
    ∧ (u_primary_window_check added 0).removed = (added.drop 1).map Prod.fst
    ∧ (u_primary_window_check added 0).warnings
        = (added.drop 1).map (fun p => (p.1, p.2.map Window.title))
    ∧ (runPrimaryCheck w).primary = w.primary.take 1
    ∧ (runPrimaryCheck w).primaryCount = min w.primary.length 1 := by
  have h0 := u_primary_window_check_zero added
  have h1 := runPrimaryCheck_fresh w hn ha hc
  exact ⟨by rw [h0], by rw [h0], by rw [h0], h1.1, h1.2⟩

/-- C2 witness: two entities spawned Primary (titles "A" then "B") on a fresh
world; the first keeps the marker, the second is stripped and warned about. -/
theorem C2_primary_window_enforcement_witness :
    (u_primary_window_check [(0, some ⟨"A"⟩), (1, some ⟨"B"⟩)] 0).removed
        = ([(0, (some ⟨"A"⟩ : Option Window)), (1, some ⟨"B"⟩)].drop 1).map Prod.fst
    ∧ (runPrimaryCheck
        ⟨2, [(0, ⟨"A"⟩), (1, ⟨"B"⟩)], [0, 1], [0, 1], [], [], [], 0, 0,
          WinitWindows.default⟩).primary = [0, 1].take 1 := by
  have h := C2_primary_window_enforcement
    [(0, some ⟨"A"⟩), (1, some ⟨"B"⟩)]
    ⟨2, [(0, ⟨"A"⟩), (1, ⟨"B"⟩)], [0, 1], [0, 1], [], [], [], 0, 0, WinitWindows.default⟩
    (by decide) rfl rfl
  exact ⟨h.2.1, h.2.2.2.1⟩

/-- C8 counterexample: the primary-window counter does not track despawns.
Run the program: build with a primary window "A" (`DontExit`), let the loop
initialise (the native window is created), run one frame (the counter rises
to 1), deliver a native close request for the window, and run one more frame
(the close request despawns the entity, and with it the Primary marker).
Afterwards the counter still reads 1 while no live entity carries the
Primary marker, so the counter does not equal the number of live entities
carrying the marker. -/
theorem C8_primary_counter_despawn_drift :
    let b := WindowPlugin.build ⟨some ⟨"A"⟩, .DontExit⟩
    let t := runTrace (appUpdate b.installedPost) (initialDriverState b.world true)
      [.init, .aboutToWait, .closeRequested 0, .aboutToWait]
    t.1.world.primaryCount = 1 ∧ t.1.world.primary = []
    ∧ t.1.world.primaryCount ≠ t.1.world.primary.length := by
  refine ⟨rfl, rfl, ?_⟩
  decide

/-- C8 (amended): the counter is only maintained by the enforcement system —
incremented per newly observed Primary marker, decremented per stripped
duplicate — and is never decremented when a marked entity is despawned or its
marker removed elsewhere, so it can exceed the number of live marked
entities.  What does hold: starting from a counter ≤ 1 (as every reachable
pass does), after one run of the enforcement system the counter is at most 1,
equals min(previous + newly observed, 1), and everything beyond it was
corrected by stripping markers rather than rejected. -/
theorem C8_primary_counter_amended (added : List (Entity × Option Window))
    (count : Nat) (hc : count ≤ 1) :
    (u_primary_window_check added count).count ≤ 1
    ∧ (u_primary_window_check added count).count = min (count + added.length) 1
    ∧ (u_primary_window_check added count).removed.length
        = count + added.length - (u_primary_window_check added count).count := by
  interval_cases count
  · rw [u_primary_window_check_zero]
    cases added with
    | nil => simp
    | cons p rest => simp [Nat.min_def]
  · rw [u_primary_window_check_eq_foldl, primary_foldl_saturated]
    simp [Nat.min_def]

/-- C8 witness: one fresh Primary marker observed with the counter at 1 (its
carrier need not be alive any more): the marker is stripped and the counter
stays at 1. -/
theorem C8_primary_counter_amended_witness :
    (u_primary_window_check [(3, none)] 1).count ≤ 1
    ∧ (u_primary_window_check [(3, none)] 1).count = min (1 + [(3, (none : Option Window))].length) 1
    ∧ (u_primary_window_check [(3, none)] 1).removed.length
        = 1 + [(3, (none : Option Window))].length - (u_primary_window_check [(3, none)] 1).count :=
  C8_primary_counter_amended [(3, none)] 1 (by decide)

/-- C1 counterexample: a pending close request whose native window identifier
(here 5) has no binding in the registry (here the empty default registry) is
not dropped as a silent no-op: `u_despawn_windows` reads the entity with the
map's panicking index operator (`window_to_entity[&event.window_id]`), so the
system faults, modelled by `Except.error 5` rather than a successful
`Except.ok` result. -/
theorem C1_unresolved_close_request_faults :
    u_despawn_windows [5] WinitWindows.default = Except.error 5 := rfl

/-- C1 (amended): the despawn-translation system never writes the registries
and despawns exactly the entities the pending close requests resolve to, but
a request whose native identifier does not resolve makes the system fault
(the panicking indexed map access), instead of being dropped silently: every
successful run had all identifiers resolvable, and a fault names a pending
identifier with no binding. -/
theorem C1_close_request_translation_amended (events : List WindowId) (ww : WinitWindows) :
    ((∀ id ∈ events, (alookup id ww.window_to_entity).isSome = true) →
      u_despawn_windows events ww
        = Except.ok (events.filterMap (fun id => alookup id ww.window_to_entity)))
    ∧ (∀ id, u_despawn_windows events ww = Except.error id →
        alookup id ww.window_to_entity = none ∧ id ∈ events) := by
  induction events with
  | nil =>
    refine ⟨fun _ => rfl, fun id h => ?_⟩
    simp [u_despawn_windows] at h
  | cons i rest ih =>
    cases hw : alookup i ww.window_to_entity with
    | none =>
      refine ⟨fun hall => ?_, fun id h => ?_⟩
      · have h1 := hall i (List.mem_cons_self _ _)
        rw [hw] at h1
        simp at h1
      · simp only [u_despawn_windows, hw] at h
        injection h with h
        subst h
        exact ⟨hw, List.mem_cons_self _ _⟩
    | some e =>
      refine ⟨fun hall => ?_, fun id h => ?_⟩
      · have h1 : u_despawn_windows rest ww
            = Except.ok (rest.filterMap (fun id => alookup id ww.window_to_entity)) :=
          ih.1 (fun id hid => hall id (List.mem_cons_of_mem _ hid))
        simp only [u_despawn_windows, hw, h1, Except.map]
        simp [List.filterMap_cons, hw]
      · simp only [u_despawn_windows, hw] at h
        cases hr : u_despawn_windows rest ww with
        | ok es =>
          rw [hr] at h
          simp [Except.map] at h
        | error j =>
          rw [hr] at h
          simp only [Except.map] at h
          injection h with h
          exact ⟨h ▸ (ih.2 j hr).1, h ▸ List.mem_cons_of_mem _ (ih.2 j hr).2⟩

/-- C1 witness: with the registry mapping native window 0 to entity 7, a
pending close request for 0 resolves and the run despawns exactly entity 7. -/
theorem C1_close_request_translation_amended_witness :
    u_despawn_windows [0] (WinitWindows.mk [(7, 0)] [(0, 7)] 1)
      = Except.ok ([0].filterMap
          (fun id => alookup id (WinitWindows.mk [(7, 0)] [(0, 7)] 1).window_to_entity)) :=
  (C1_close_request_translation_amended [0] (WinitWindows.mk [(7, 0)] [(0, 7)] 1)).1
    (by decide)

/-! ### Registry teardown lemmas -/

/-- Destroying an entity's window removes its forward registry entry. -/
theorem alookup_destroy_window_self (ww : WinitWindows) (e : Entity) :
    alookup e (ww.destroy_window e).entity_to_window = none := by
  unfold WinitWindows.destroy_window
  cases h : alookup e ww.entity_to_window with
  | none => exact h
  | some id => exact alookup_filter_key_self e ww.entity_to_window

/-- Destroying any window never introduces a forward entry for an entity
that had none. -/
theorem alookup_destroy_window_pres_none (ww : WinitWindows) (e e' : Entity)
    (h : alookup e ww.entity_to_window = none) :
    alookup e (ww.destroy_window e').entity_to_window = none := by
  unfold WinitWindows.destroy_window
  cases hl : alookup e' ww.entity_to_window with
  | none => exact h
  | some id => exact alookup_none_filter _ h

/-- A full teardown pass never introduces a forward entry for an entity that
had none. -/
theorem alookup_close_windows_pres_none (removed : List Entity) (ww : WinitWindows)
    (e : Entity) (h : alookup e ww.entity_to_window = none) :
    alookup e (u_close_windows removed ww).entity_to_window = none := by
  induction removed generalizing ww with
  | nil => exact h
  | cons r rest ih =>
    exact ih (ww.destroy_window r) (alookup_destroy_window_pres_none ww e r h)

/-- C5: on a lifecycle pass the teardown system calls registry destroy for
every entity whose `Window` descriptor was removed since the last pass — its
forward registry entry is gone afterwards — and destroy on an entity with no
registered handle is a total no-op (the registry is returned unchanged, no
fault). -/
theorem C5_teardown_on_descriptor_removal (removed : List Entity) (ww : WinitWindows)
    (e : Entity) :
    (alookup e ww.entity_to_window = none → ww.destroy_window e = ww)
    ∧ (e ∈ removed → alookup e (u_close_windows removed ww).entity_to_window = none) := by
  constructor
  · intro h
    unfold WinitWindows.destroy_window
    rw [h]
  · intro hm
    induction removed generalizing ww with
    | nil => simp at hm
    | cons r rest ih =>
      rcases List.mem_cons.mp hm with h | h
      · subst h
        exact alookup_close_windows_pres_none rest _ e (alookup_destroy_window_self ww e)
      · exact ih (ww.destroy_window r) h

/-- C5 witness: destroying entity 3 on the empty registry is a no-op, and a
teardown pass for removed entity 3 leaves no forward entry for it. -/
theorem C5_teardown_on_descriptor_removal_witness :
    WinitWindows.default.destroy_window 3 = WinitWindows.default
    ∧ alookup 3 (u_close_windows [3] WinitWindows.default).entity_to_window = none :=
  ⟨(C5_teardown_on_descriptor_removal [3] WinitWindows.default 3).1 rfl,
   (C5_teardown_on_descriptor_removal [3] WinitWindows.default 3).2 (by decide)⟩

/-! ### Registry bijection lemmas -/

theorem consistent_default : WinitWindows.default.Consistent := by
  refine ⟨?_, ?_, ?_, ?_, ?_⟩ <;> simp [WinitWindows.default, WinitWindows.Consistent]

/-- Creating a window for an entity with no forward entry preserves mutual
consistency: the fresh handle `next_id` collides with nothing. -/
theorem consistent_create_window {ww : WinitWindows} {e : Entity} {d : Window}
    (hc : ww.Consistent) (he : alookup e ww.entity_to_window = none) :
    (ww.create_window e d).Consistent := by
  obtain ⟨h1, h2, h3, h4, h5⟩ := hc
  refine ⟨?_, ?_, ?_, ?_, ?_⟩
  · intro p hp
    simp only [WinitWindows.create_window] at hp ⊢
    rcases List.mem_cons.mp hp with h | h
    · cases h
      rw [alookup_cons, if_pos rfl]
    · have hlt : p.2 < ww.next_id := h3 _ (mem_of_alookup_some (h1 p h))
      rw [alookup_cons, if_neg (Nat.ne_of_lt hlt)]
      exact h1 p h
  · intro q hq
    simp only [WinitWindows.create_window] at hq ⊢
    rcases List.mem_cons.mp hq with h | h
    · cases h
      rw [alookup_cons, if_pos rfl]
    · have hne : q.2 ≠ e := by
        intro hqe
        have h2q := h2 q h
        rw [hqe, he] at h2q
        exact Option.noConfusion h2q
      rw [alookup_cons, if_neg hne]
      exact h2 q h
  · intro q hq
    simp only [WinitWindows.create_window] at hq ⊢
    rcases List.mem_cons.mp hq with h | h
    · cases h
      exact Nat.lt_succ_self _
    · exact Nat.lt_succ_of_lt (h3 q h)
  · simp only [WinitWindows.create_window, List.map_cons]
    exact List.nodup_cons.mpr ⟨alookup_none_not_mem_keys he, h4⟩
  · simp only [WinitWindows.create_window, List.map_cons]
    refine List.nodup_cons.mpr ⟨?_, h5⟩
    intro hmem
    obtain ⟨q, hq, hq1⟩ := List.mem_map.mp hmem
    exact absurd (hq1 ▸ h3 q hq) (Nat.lt_irrefl _)

/-- Destroying a window preserves mutual consistency: both entries of the
destroyed pair are removed together. -/
theorem consistent_destroy_window {ww : WinitWindows} (e : Entity)
    (hc : ww.Consistent) : (ww.destroy_window e).Consistent := by
  obtain ⟨h1, h2, h3, h4, h5⟩ := hc
  unfold WinitWindows.destroy_window
  cases hl : alookup e ww.entity_to_window with
  | none => exact ⟨h1, h2, h3, h4, h5⟩
  | some id =>
    have hid : alookup id ww.window_to_entity = some e := h1 _ (mem_of_alookup_some hl)
    refine ⟨?_, ?_, ?_, ?_, ?_⟩
    · intro p hp
      obtain ⟨hpm, hpe⟩ := List.mem_filter.mp hp
      have hpe : p.1 ≠ e := of_decide_eq_true hpe
      have hp2 : p.2 ≠ id := by
        intro h
        have h1p := h1 p hpm
        rw [h, hid] at h1p
        exact hpe (Option.some.inj h1p).symm
      rw [alookup_filter_key_ne _ hp2]
      exact h1 p hpm
    · intro q hq
      obtain ⟨hqm, hqi⟩ := List.mem_filter.mp hq
      have hqi : q.1 ≠ id := of_decide_eq_true hqi
      have hq2 : q.2 ≠ e := by
        intro h
        have h2q := h2 q hqm
        rw [h, hl] at h2q
        exact hqi (Option.some.inj h2q).symm
      rw [alookup_filter_key_ne _ hq2]
      exact h2 q hqm
    · intro q hq
      exact h3 q (List.mem_filter.mp hq).1
    · exact h4.sublist ((List.filter_sublist _).map Prod.fst)
    · exact h5.sublist ((List.filter_sublist _).map Prod.fst)

/-- One reconciliation step preserves mutual consistency. -/
theorem consistent_createStep {ww : WinitWindows} (p : Entity × Window)
    (hc : ww.Consistent) : (createStep ww p).Consistent := by
  unfold createStep
  by_cases hp : (alookup p.1 ww.entity_to_window).isSome
  · rw [if_pos hp]
    exact hc
  · rw [if_neg hp]
    exact consistent_create_window hc (Option.not_isSome_iff_eq_none.mp hp)

/-- Reconciliation preserves mutual consistency. -/
theorem consistent_create_windows {ww : WinitWindows} (added : List (Entity × Window))
    (hc : ww.Consistent) : (create_windows added ww).Consistent := by
  induction added generalizing ww with
  | nil => exact hc
  | cons p rest ih => exact ih (consistent_createStep p hc)

/-- The teardown pass preserves mutual consistency. -/
theorem consistent_close_windows {ww : WinitWindows} (removed : List Entity)
    (hc : ww.Consistent) : (u_close_windows removed ww).Consistent := by
  induction removed generalizing ww with
  | nil => exact hc
  | cons r rest ih => exact ih (consistent_destroy_window r hc)

/-- Reconciliation keeps an already registered handle exactly as it is and
binds the entity's key no additional time. -/
theorem create_windows_skips_registered {ww : WinitWindows} {e : Entity} {h : WindowId}
    (added : List (Entity × Window)) (hs : alookup e ww.entity_to_window = some h) :
    alookup e (create_windows added ww).entity_to_window = some h
    ∧ (create_windows added ww).entity_to_window.countP (fun q => decide (q.1 = e))
        = ww.entity_to_window.countP (fun q => decide (q.1 = e)) := by
  induction added generalizing ww with
  | nil => exact ⟨hs, rfl⟩
  | cons p rest ih =>
    have hunf : create_windows (p :: rest) ww = create_windows rest (createStep ww p) := rfl
    rw [hunf]
    by_cases hp : (alookup p.1 ww.entity_to_window).isSome
    · have hstep : createStep ww p = ww := by
        unfold createStep
        rw [if_pos hp]
      rw [hstep]
      exact ih hs
    · have hne : p.1 ≠ e := by
        intro hpe
        rw [hpe, hs] at hp
        simp at hp
      have hstep : createStep ww p = ww.create_window p.1 p.2 := by
        unfold createStep
        rw [if_neg hp]
      rw [hstep]
      have hs2 : alookup e (ww.create_window p.1 p.2).entity_to_window = some h := by
        simp only [WinitWindows.create_window]
        rw [alookup_cons, if_neg (fun hh : e = p.1 => hne hh.symm)]
        exact hs
      have hih := ih hs2
      refine ⟨hih.1, ?_⟩
      rw [hih.2]
      simp only [WinitWindows.create_window]
      rw [List.countP_cons_of_neg]
      simp [hne]

/-- After reconciliation every entity of the `Added<Window>` query has a
registered handle. -/
theorem create_windows_realizes {ww : WinitWindows} (added : List (Entity × Window)) :
    ∀ p ∈ added, (alookup p.1 (create_windows added ww).entity_to_window).isSome = true := by
  induction added generalizing ww with
  | nil => intro p hp; simp at hp
  | cons a rest ih =>
    intro p hp
    have hunf : create_windows (a :: rest) ww = create_windows rest (createStep ww a) := rfl
    rw [hunf]
    rcases List.mem_cons.mp hp with h | h
    · subst h
      have hsome : (alookup p.1 (createStep ww p).entity_to_window).isSome = true := by
        by_cases hq : (alookup p.1 ww.entity_to_window).isSome
        · have hstep : createStep ww p = ww := by
            unfold createStep
            rw [if_pos hq]
          rw [hstep]
          exact hq
        · have hstep : createStep ww p = ww.create_window p.1 p.2 := by
            unfold createStep
            rw [if_neg hq]
          rw [hstep]
          simp only [WinitWindows.create_window]
          rw [alookup_cons, if_pos rfl]
          rfl
      obtain ⟨v, hv⟩ := Option.isSome_iff_exists.mp hsome
      exact Option.isSome_iff_exists.mpr
        ⟨v, (create_windows_skips_registered rest hv).1⟩
    · exact ih p h

/-- Registered handles survive reconciliation (monotonicity of `isSome`). -/
theorem create_windows_isSome_mono {ww : WinitWindows} {e : Entity}
    (added : List (Entity × Window))
    (hs : (alookup e ww.entity_to_window).isSome = true) :
    (alookup e (create_windows added ww).entity_to_window).isSome = true := by
  obtain ⟨v, hv⟩ := Option.isSome_iff_exists.mp hs
  exact Option.isSome_iff_exists.mpr ⟨v, (create_windows_skips_registered added hv).1⟩

/-- C7: the registry's two maps are mutually consistent at every point in
time: consistency holds for the initial empty registry and is preserved by
every operation that touches the maps (`create_window` on an unregistered
entity, `destroy_window`, the reconciliation pass `create_windows`, the
teardown pass `u_close_windows`); under consistency, looking an entity's
handle back up yields exactly that entity and vice versa, so no handle is
bound to two entities nor an entity to two handles; and reconciliation never
creates a second window for an entity that already has one (its handle and
its number of bindings are unchanged). -/
theorem C7_registry_bijection (ww : WinitWindows) (added : List (Entity × Window))
    (removed : List Entity) (e : Entity) (d : Window) (h : WindowId)
    (hc : ww.Consistent) :
    WinitWindows.default.Consistent
    ∧ (alookup e ww.entity_to_window = none → (ww.create_window e d).Consistent)
    ∧ (ww.destroy_window e).Consistent
    ∧ (create_windows added ww).Consistent
    ∧ (u_close_windows removed ww).Consistent
    ∧ (alookup e ww.entity_to_window = some h → alookup h ww.window_to_entity = some e)
    ∧ (alookup h ww.window_to_entity = some e → alookup e ww.entity_to_window = some h)
    ∧ (alookup e ww.entity_to_window = some h →
        alookup e (create_windows added ww).entity_to_window = some h
        ∧ (create_windows added ww).entity_to_window.countP (fun q => decide (q.1 = e))
            = ww.entity_to_window.countP (fun q => decide (q.1 = e))) :=
  ⟨consistent_default,
   fun he => consistent_create_window hc he,
   consistent_destroy_window e hc,
   consistent_create_windows added hc,
   consistent_close_windows removed hc,
   fun hs => hc.1 _ (mem_of_alookup_some hs),
   fun hs => hc.2.1 _ (mem_of_alookup_some hs),
   fun hs => create_windows_skips_registered added hs⟩

/-- C7 witness: a consistent registry binding entity 7 to handle 0; the
reverse lookup of its handle yields entity 7 back, and reconciling an added
window for entity 7 leaves its single binding untouched. -/
theorem C7_registry_bijection_witness :
    alookup 0 (WinitWindows.mk [(7, 0)] [(0, 7)] 1).window_to_entity = some 7
    ∧ alookup 7 (create_windows [(7, ⟨"W"⟩)]
        (WinitWindows.mk [(7, 0)] [(0, 7)] 1)).entity_to_window = some 0
    ∧ ((WinitWindows.mk [(7, 0)] [(0, 7)] 1).destroy_window 7).Consistent := by
  have h := C7_registry_bijection (WinitWindows.mk [(7, 0)] [(0, 7)] 1)
    [(7, ⟨"W"⟩)] [9] 7 ⟨"W"⟩ 0 (by unfold WinitWindows.Consistent; decide)
  exact ⟨h.2.2.2.2.2.1 (by decide), (h.2.2.2.2.2.2.2 (by decide)).1, h.2.2.1⟩

/-! ### Event-loop driver lemmas -/

/-- Once the driver has observed the exit signal (`exited` set), a dispatch
never runs a frame and never clears the flag. -/
theorem event_handler_exited (upd : AppWorld → Option AppWorld) (s : DriverState)
    (ev : NativeEvent) (hx : s.exited = true) :
    (event_handler upd s ev).frameRan = false
    ∧ (event_handler upd s ev).state.exited = true := by
  unfold event_handler
  by_cases ht : s.reader < s.world.exitEvents
  · rw [if_pos ht]
    exact ⟨rfl, rfl⟩
  · rw [if_neg ht]
    cases ev with
    | init => exact ⟨rfl, hx⟩
    | closeRequested id => exact ⟨rfl, hx⟩
    | aboutToWait =>
      have hb : (s.pluginsCleaned && !s.exited) = false := by
        rw [hx]
        simp
      dsimp only
      rw [hb, if_neg Bool.false_ne_true]
      exact ⟨rfl, hx⟩
    | other => exact ⟨rfl, hx⟩

/-- Once the driver has observed the exit signal, no frame ever runs again,
over any further trace of native events. -/
theorem runTrace_exited (upd : AppWorld → Option AppWorld) (s : DriverState)
    (evs : List NativeEvent) (hx : s.exited = true) :
    (runTrace upd s evs).2 = 0 := by
  induction evs generalizing s with
  | nil => rfl
  | cons ev rest ih =>
    have h := event_handler_exited upd s ev hx
    simp only [runTrace]
    rw [h.1, ih _ h.2]
    rfl

/-- The unconditional top-of-dispatch check: with the exit signal pending,
any dispatch terminates the native loop, runs no frame, leaves the world
untouched, and only advances the event reader. -/
theorem event_handler_observes_pending (upd : AppWorld → Option AppWorld) (s : DriverState)
    (ev : NativeEvent) (ht : s.reader < s.world.exitEvents) :
    event_handler upd s ev
      = ⟨⟨s.world, s.world.exitEvents, true, s.pluginsCleaned⟩, .terminated, false⟩ := by
  unfold event_handler
  rw [if_pos ht]

/-- A frame only runs on an `AboutToWait` dispatch on which the top check saw
no pending exit signal, the driver had not exited, and plugins were cleaned. -/
theorem event_handler_frameRan (upd : AppWorld → Option AppWorld) (s : DriverState)
    (ev : NativeEvent) (hf : (event_handler upd s ev).frameRan = true) :
    s.exited = false ∧ ¬s.reader < s.world.exitEvents
    ∧ ev = NativeEvent.aboutToWait ∧ s.pluginsCleaned = true := by
  by_cases ht : s.reader < s.world.exitEvents
  · rw [event_handler_observes_pending upd s ev ht] at hf
    exact absurd hf (by simp)
  · cases ev with
    | init =>
      unfold event_handler at hf
      rw [if_neg ht] at hf
      exact absurd hf (by simp)
    | closeRequested id =>
      unfold event_handler at hf
      rw [if_neg ht] at hf
      exact absurd hf (by simp)
    | other =>
      unfold event_handler at hf
      rw [if_neg ht] at hf
      exact absurd hf (by simp)
    | aboutToWait =>
      unfold event_handler at hf
      rw [if_neg ht] at hf
      dsimp only at hf
      by_cases hb : (s.pluginsCleaned && !s.exited) = true
      · obtain ⟨h1, h2⟩ := Bool.and_eq_true_iff.mp hb
        exact ⟨by simpa using h2, ht, rfl, h1⟩
      · rw [Bool.not_eq_true] at hb
        rw [hb, if_neg Bool.false_ne_true] at hf
        exact absurd hf (by simp)

/-- The re-check immediately after a frame: when the frame emits the exit
signal, the same dispatch terminates the native loop at once. -/
theorem event_handler_frame_emits_terminates (upd : AppWorld → Option AppWorld)
    (s : DriverState) (w' : AppWorld)
    (ht : ¬s.reader < s.world.exitEvents) (hx : s.exited = false)
    (hp : s.pluginsCleaned = true) (hu : upd s.world = some w')
    (he : s.world.exitEvents < w'.exitEvents) :
    event_handler upd s .aboutToWait
      = ⟨⟨w', w'.exitEvents, true, s.pluginsCleaned⟩, .terminated, true⟩ := by
  unfold event_handler
  rw [if_neg ht]
  dsimp only
  have hb : (s.pluginsCleaned && !s.exited) = true := by
    rw [hx, hp]
    rfl
  rw [hb, if_pos rfl, hu]
  dsimp only
  rw [if_pos he]

/-- C3: once the exit signal has been observed by the driver, no further
application frame ever executes (over any further trace of native events);
the signal is checked unconditionally at the top of every dispatch — when
pending, the dispatch terminates the native loop, runs no frame, and takes
no further action (the world is untouched, only the reader advances) — and
again immediately after each frame, so a frame that emits the signal is
followed by termination within the same dispatch, and at most one frame runs
strictly between emission and observation. -/
theorem C3_exit_signal_monotonicity (upd : AppWorld → Option AppWorld)
    (s : DriverState) (ev : NativeEvent) (evs : List NativeEvent) (w' : AppWorld) :
    (s.exited = true →
      (event_handler upd s ev).frameRan = false
      ∧ (event_handler upd s ev).state.exited = true)
    ∧ (s.exited = true → (runTrace upd s evs).2 = 0)
    ∧ (s.reader < s.world.exitEvents →
        event_handler upd s ev
          = ⟨⟨s.world, s.world.exitEvents, true, s.pluginsCleaned⟩, .terminated, false⟩)
    ∧ ((event_handler upd s ev).frameRan = true →
        s.exited = false ∧ ¬s.reader < s.world.exitEvents
        ∧ ev = NativeEvent.aboutToWait ∧ s.pluginsCleaned = true)
    ∧ (s.exited = false → s.pluginsCleaned = true → ¬s.reader < s.world.exitEvents →
        upd s.world = some w' → s.world.exitEvents < w'.exitEvents →
        event_handler upd s .aboutToWait
          = ⟨⟨w', w'.exitEvents, true, s.pluginsCleaned⟩, .terminated, true⟩) :=
  ⟨event_handler_exited upd s ev,
   runTrace_exited upd s evs,
   event_handler_observes_pending upd s ev,
   event_handler_frameRan upd s ev,
   fun hx hp ht hu he => event_handler_frame_emits_terminates upd s w' ht hx hp hu he⟩

/-- C3 witness: a frame function that emits the exit signal; an exited driver
runs no frame over two further dispatches, a pending signal terminates an
`other` dispatch, and a frame that emits the signal terminates its own
dispatch. -/
theorem C3_exit_signal_monotonicity_witness :
    (runTrace (fun w => some { w with exitEvents := w.exitEvents + 1 })
        ⟨AppWorld.empty, 0, true, true⟩ [.aboutToWait, .init]).2 = 0
    ∧ (event_handler (fun w => some { w with exitEvents := w.exitEvents + 1 })
        ⟨{ AppWorld.empty with exitEvents := 1 }, 0, false, true⟩ .other).outcome
        = .terminated
    ∧ event_handler (fun w => some { w with exitEvents := w.exitEvents + 1 })
        ⟨AppWorld.empty, 0, false, true⟩ .aboutToWait
        = ⟨⟨{ AppWorld.empty with exitEvents := 1 }, 1, true, true⟩, .terminated, true⟩ := by
  refine ⟨?_, ?_, ?_⟩
  · exact (C3_exit_signal_monotonicity _ _ .other [.aboutToWait, .init]
      AppWorld.empty).2.1 rfl
  · rw [(C3_exit_signal_monotonicity _ _ .other [] AppWorld.empty).2.2.1 (by decide)]
  · exact (C3_exit_signal_monotonicity _ _ .other []
      { AppWorld.empty with exitEvents := 1 }).2.2.2.2 rfl rfl (by decide) rfl (by decide)

/-- Reconciliation consumes the pending queue and realizes every live
descriptor-carrying entity. -/
theorem reconcile_realizes (w : AppWorld) (hw : WindowsRealizedInv w) :
    (reconcile w).addedWindows = []
    ∧ ∀ p ∈ (reconcile w).windows,
        (alookup p.1 (reconcile w).registry.entity_to_window).isSome = true := by
  refine ⟨rfl, ?_⟩
  intro p hp
  rcases hw p hp with h | h
  · obtain ⟨q, hq, hq1⟩ := List.mem_map.mp h
    exact hq1 ▸ create_windows_realizes w.addedWindows q hq
  · exact create_windows_isSome_mono w.addedWindows h

/-- Reconciliation preserves the realized-windows invariant. -/
theorem reconcile_pres_inv (w : AppWorld) (hw : WindowsRealizedInv w) :
    WindowsRealizedInv (reconcile w) :=
  fun p hp => Or.inr ((reconcile_realizes w hw).2 p hp)

/-- Dispatch shape on `Init` when no exit signal is pending. -/
theorem event_handler_init_eq (upd : AppWorld → Option AppWorld) (s : DriverState)
    (ht : ¬s.reader < s.world.exitEvents) :
    event_handler upd s .init
      = ⟨⟨reconcile (reconcile s.world), s.world.exitEvents, s.exited, s.pluginsCleaned⟩,
          .continued, false⟩ := by
  unfold event_handler
  rw [if_neg ht]

/-- Dispatch shape on `CloseRequested` when no exit signal is pending. -/
theorem event_handler_close_eq (upd : AppWorld → Option AppWorld) (s : DriverState)
    (id : WindowId) (ht : ¬s.reader < s.world.exitEvents) :
    event_handler upd s (.closeRequested id)
      = ⟨⟨reconcile { s.world with closeEvents := s.world.closeEvents ++ [id] },
          s.world.exitEvents, s.exited, s.pluginsCleaned⟩, .continued, false⟩ := by
  unfold event_handler
  rw [if_neg ht]

/-- Dispatch shape on any other native event when no exit signal is pending. -/
theorem event_handler_other_eq (upd : AppWorld → Option AppWorld) (s : DriverState)
    (ht : ¬s.reader < s.world.exitEvents) :
    event_handler upd s .other
      = ⟨⟨reconcile s.world, s.world.exitEvents, s.exited, s.pluginsCleaned⟩,
          .continued, false⟩ := by
  unfold event_handler
  rw [if_neg ht]

/-- Dispatch shape on `AboutToWait` when the frame is skipped. -/
theorem event_handler_wait_skip_eq (upd : AppWorld → Option AppWorld) (s : DriverState)
    (ht : ¬s.reader < s.world.exitEvents)
    (hb : (s.pluginsCleaned && !s.exited) = false) :
    event_handler upd s .aboutToWait
      = ⟨⟨reconcile s.world, s.world.exitEvents, s.exited, s.pluginsCleaned⟩,
          .continued, false⟩ := by
  unfold event_handler
  rw [if_neg ht]
  dsimp only
  rw [hb, if_neg Bool.false_ne_true]

/-- Dispatch shape on `AboutToWait` when the frame panics. -/
theorem event_handler_wait_panic_eq (upd : AppWorld → Option AppWorld) (s : DriverState)
    (ht : ¬s.reader < s.world.exitEvents)
    (hb : (s.pluginsCleaned && !s.exited) = true) (hup : upd s.world = none) :
    event_handler upd s .aboutToWait
      = ⟨⟨s.world, s.world.exitEvents, s.exited, s.pluginsCleaned⟩, .panicked, true⟩ := by
  unfold event_handler
  rw [if_neg ht]
  dsimp only
  rw [hb, if_pos rfl, hup]

/-- Dispatch shape on `AboutToWait` when the frame runs and does not emit the
exit signal. -/
theorem event_handler_wait_continue_eq (upd : AppWorld → Option AppWorld) (s : DriverState)
    (w' : AppWorld) (ht : ¬s.reader < s.world.exitEvents)
    (hb : (s.pluginsCleaned && !s.exited) = true) (hup : upd s.world = some w')
    (hlt : ¬s.world.exitEvents < w'.exitEvents) :
    event_handler upd s .aboutToWait
      = ⟨⟨reconcile w', s.world.exitEvents, s.exited, s.pluginsCleaned⟩, .continued, true⟩ := by
  unfold event_handler
  rw [if_neg ht]
  dsimp only
  rw [hb, if_pos rfl, hup]
  dsimp only
  rw [if_neg hlt]

/-- C4: at the end of every dispatch in which the exit path was not taken
(outcome `continued`), the pending `Added<Window>` queue has been fully
consumed and every entity carrying a `Window` descriptor has a registered
native handle; reconciliation is idempotent — an entity that already has a
registered handle keeps exactly that handle and its single binding, and is
never given a second window. -/
theorem C4_end_of_dispatch_reconciliation (upd : AppWorld → Option AppWorld)
    (s : DriverState) (ev : NativeEvent) (e : Entity) (h : WindowId)
    (added : List (Entity × Window))
    (hu : ∀ w w', upd w = some w' → WindowsRealizedInv w → WindowsRealizedInv w')
    (hs : WindowsRealizedInv s.world) :
    ((event_handler upd s ev).outcome = .continued →
      (event_handler upd s ev).state.world.addedWindows = []
      ∧ ∀ p ∈ (event_handler upd s ev).state.world.windows,
          (alookup p.1
            (event_handler upd s ev).state.world.registry.entity_to_window).isSome = true)
    ∧ (alookup e s.world.registry.entity_to_window = some h →
        alookup e (create_windows added s.world.registry).entity_to_window = some h
        ∧ (create_windows added s.world.registry).entity_to_window.countP
            (fun q => decide (q.1 = e))
          = s.world.registry.entity_to_window.countP (fun q => decide (q.1 = e))) := by
  constructor
  · intro ho
    by_cases ht : s.reader < s.world.exitEvents
    · rw [event_handler_observes_pending upd s ev ht] at ho
      exact absurd ho (by simp)
    · cases ev with
      | init =>
        rw [event_handler_init_eq upd s ht]
        exact reconcile_realizes _ (reconcile_pres_inv _ hs)
      | closeRequested id =>
        rw [event_handler_close_eq upd s id ht]
        exact reconcile_realizes _ (fun p hp => hs p hp)
      | other =>
        rw [event_handler_other_eq upd s ht]
        exact reconcile_realizes _ hs
      | aboutToWait =>
        by_cases hb : (s.pluginsCleaned && !s.exited) = true
        · cases hup : upd s.world with
          | none =>
            rw [event_handler_wait_panic_eq upd s ht hb hup] at ho
            exact absurd ho (by simp)
          | some w' =>
            by_cases hlt : s.world.exitEvents < w'.exitEvents
            · obtain ⟨h1, h2⟩ := Bool.and_eq_true_iff.mp hb
              rw [event_handler_frame_emits_terminates upd s w' ht
                (by simpa using h2) h1 hup hlt] at ho
              exact absurd ho (by simp)
            · rw [event_handler_wait_continue_eq upd s w' ht hb hup hlt]
              exact reconcile_realizes _ (hu _ _ hup hs)
        · rw [Bool.not_eq_true] at hb
          rw [event_handler_wait_skip_eq upd s ht hb]
          exact reconcile_realizes _ hs
  · intro hreg
    exact create_windows_skips_registered added hreg

/-- C4 witness: an identity frame on a world with one freshly added window
for entity 0; the dispatch ends with the queue consumed and entity 0
realized with a handle. -/
theorem C4_end_of_dispatch_reconciliation_witness :
    (event_handler (fun w => some w)
      ⟨⟨1, [(0, ⟨"A"⟩)], [], [], [(0, ⟨"A"⟩)], [], [], 0, 0, WinitWindows.default⟩,
        0, false, true⟩ .other).state.world.addedWindows = []
    ∧ (alookup 0 (event_handler (fun w => some w)
        ⟨⟨1, [(0, ⟨"A"⟩)], [], [], [(0, ⟨"A"⟩)], [], [], 0, 0, WinitWindows.default⟩,
          0, false, true⟩ .other).state.world.registry.entity_to_window).isSome = true := by
  have hc := (C4_end_of_dispatch_reconciliation (fun w => some w)
    ⟨⟨1, [(0, ⟨"A"⟩)], [], [], [(0, ⟨"A"⟩)], [], [], 0, 0, WinitWindows.default⟩,
      0, false, true⟩ .other 0 0 []
    (fun w w' hww hw => by
      injection hww with hww
      exact hww ▸ hw)
    (by unfold WindowsRealizedInv; decide)).1 rfl
  exact ⟨hc.1, hc.2 (0, ⟨"A"⟩) (by decide)⟩

/-- C6: the exit condition selected at startup determines exactly when the
post-update pass emits the exit signal: `OnPrimaryClosed` installs the system
that emits once no entity carries both a `Window` descriptor and the
`PrimaryWindow` marker, `OnAllClosed` installs the system that emits once no
entity carries a `Window` descriptor at all, and `DontExit` installs neither,
so the post-update pass never changes the world and the loop can only stop on
an externally emitted exit signal. -/
theorem C6_exit_condition_selection (pw : Option Window) (w : AppWorld) :
    (WindowPlugin.build ⟨pw, .OnPrimaryClosed⟩).installedPost = [.exitOnPrimaryClosed]
    ∧ (WindowPlugin.build ⟨pw, .OnAllClosed⟩).installedPost = [.exitOnAllClosed]
    ∧ (WindowPlugin.build ⟨pw, .DontExit⟩).installedPost = []
    ∧ runPostUpdate [] w = w
    ∧ (runPostUpdate [.exitOnPrimaryClosed] w
        = if ∀ p ∈ w.windows, p.1 ∉ w.primary then
            { w with exitEvents := w.exitEvents + 1 }
          else w)
    ∧ (runPostUpdate [.exitOnAllClosed] w
        = if w.windows = [] then { w with exitEvents := w.exitEvents + 1 } else w) := by
  refine ⟨rfl, rfl, rfl, rfl, ?_, ?_⟩
  · by_cases hcond : ∀ p ∈ w.windows, p.1 ∉ w.primary
    · rw [if_pos hcond]
      have hfil : (w.windows.map Prod.fst).filter (fun e => decide (e ∈ w.primary)) = [] := by
        rw [List.filter_eq_nil_iff]
        intro a ha
        obtain ⟨p, hp, hpa⟩ := List.mem_map.mp ha
        simpa using hpa ▸ hcond p hp
      simp [runPostUpdate, runPostSystem, pu_exit_on_primary_closed, hfil]
    · rw [if_neg hcond]
      push_neg at hcond
      obtain ⟨p, hp, hpp⟩ := hcond
      have hmem : p.1 ∈ (w.windows.map Prod.fst).filter (fun e => decide (e ∈ w.primary)) :=
        List.mem_filter.mpr ⟨List.mem_map.mpr ⟨p, hp, rfl⟩, by simpa using hpp⟩
      have hne := List.ne_nil_of_mem hmem
      simp [runPostUpdate, runPostSystem, pu_exit_on_primary_closed, List.isEmpty_iff, hne]
  · by_cases hw : w.windows = []
    · rw [if_pos hw]
      simp [runPostUpdate, runPostSystem, pu_exit_on_all_closed, hw]
    · rw [if_neg hw]
      have hmap : w.windows.map Prod.fst ≠ [] := by simpa using hw
      simp [runPostUpdate, runPostSystem, pu_exit_on_all_closed, List.isEmpty_iff, hmap]

/-- C9: plugin registration spawns no entity for `primary_window = None` and
exactly one entity carrying the given descriptor together with the Primary
marker for `Some(descriptor)`; the default exit condition is `OnAllClosed`. -/
theorem C9_plugin_registration (d : Window) (c : ExitCondition) :
    (WindowPlugin.build ⟨none, c⟩).world = AppWorld.empty
    ∧ (WindowPlugin.build ⟨some d, c⟩).world.windows = [(0, d)]
    ∧ (WindowPlugin.build ⟨some d, c⟩).world.primary = [0]
    ∧ (WindowPlugin.build ⟨some d, c⟩).world.nextEntity = 1
    ∧ (WindowPlugin.build ⟨some d, c⟩).world.addedWindows = [(0, d)]
    ∧ (WindowPlugin.build ⟨some d, c⟩).world.addedPrimary = [0]
    ∧ ExitCondition.default = ExitCondition.OnAllClosed :=
  ⟨rfl, rfl, rfl, rfl, rfl, rfl, rfl⟩

/-- C10: registered with no initial window under the default exit condition
(`OnAllClosed`) and with no window spawned by the application, the loop-init
dispatch runs no frame, and the very first frame's post-update pass emits the
exit signal (no entity carries a `Window` descriptor), so the dispatch that
ran that frame already terminates the native loop. -/
theorem C10_no_windows_exits_immediately :
    (event_handler (appUpdate (WindowPlugin.build ⟨none, ExitCondition.default⟩).installedPost)
        (initialDriverState (WindowPlugin.build ⟨none, ExitCondition.default⟩).world true)
        .init).outcome = .continued
    ∧ (event_handler (appUpdate (WindowPlugin.build ⟨none, ExitCondition.default⟩).installedPost)
        (initialDriverState (WindowPlugin.build ⟨none, ExitCondition.default⟩).world true)
        .init).frameRan = false
    ∧ (event_handler (appUpdate (WindowPlugin.build ⟨none, ExitCondition.default⟩).installedPost)
        (event_handler (appUpdate (WindowPlugin.build ⟨none, ExitCondition.default⟩).installedPost)
          (initialDriverState (WindowPlugin.build ⟨none, ExitCondition.default⟩).world true)
          .init).state .aboutToWait).frameRan = true
    ∧ (event_handler (appUpdate (WindowPlugin.build ⟨none, ExitCondition.default⟩).installedPost)
        (event_handler (appUpdate (WindowPlugin.build ⟨none, ExitCondition.default⟩).installedPost)
          (initialDriverState (WindowPlugin.build ⟨none, ExitCondition.default⟩).world true)
          .init).state .aboutToWait).outcome = .terminated
    ∧ (event_handler (appUpdate (WindowPlugin.build ⟨none, ExitCondition.default⟩).installedPost)
        (event_handler (appUpdate (WindowPlugin.build ⟨none, ExitCondition.default⟩).installedPost)
          (initialDriverState (WindowPlugin.build ⟨none, ExitCondition.default⟩).world true)
          .init).state .aboutToWait).state.world.exitEvents = 1
    ∧ (event_handler (appUpdate (WindowPlugin.build ⟨none, ExitCondition.default⟩).installedPost)
        (event_handler (appUpdate (WindowPlugin.build ⟨none, ExitCondition.default⟩).installedPost)
          (initialDriverState (WindowPlugin.build ⟨none, ExitCondition.default⟩).world true)
          .init).state .aboutToWait).state.exited = true :=
  ⟨rfl, rfl, rfl, rfl, rfl, rfl⟩

end Ruxel
